import Mathlib

/-!
Shallow embedding of the LawyerPortal repository's intake-map page and
profile-draft machinery, with theorems settling the specification claims.

The map page (`createOrder`, `applyMapColors`, `applyStateLabels`,
`handleMouseMove`, the mount-time load protocol) is embedded from the
single-file Vue component; JavaScript numbers are modelled as `JSNum`
(a rational or one of the non-finite values), `Math.round` as
`jsRound`, and DOM state as explicit Lean structures.
-/

-- Batteries marks the rational-number operations irreducible for elaboration
-- performance; the concrete evaluations below need them to unfold.
set_option allowUnsafeReducibility true in
attribute [semireducible] Rat.mul Rat.add Rat.inv Rat.sub

namespace LawyerPortal

/-- Region status enum of the intake map (`'active' | 'low' | 'inactive'`). -/
inductive StateStatus where
  | active
  | low
  | inactive
deriving DecidableEq, Repr

/-- A JavaScript number: either a finite rational or one of NaN / ±Infinity.
`Number.isFinite` holds exactly on the `num` constructor. -/
inductive JSNum where
  | num (q : ℚ)
  | nan
  | posInf
  | negInf
deriving DecidableEq, Repr

/-- Model of `Number.isFinite(x) && x > 0` (the guard order in the source
short-circuits, so the combined test is exactly this). -/
def JSNum.finitePosB : JSNum → Bool
  | JSNum.num q => decide (0 < q)
  | _ => false

/-- Model of `Number.isFinite(x) && x >= 0`. -/
def JSNum.finiteNonnegB : JSNum → Bool
  | JSNum.num q => decide (0 ≤ q)
  | _ => false

/-- Model of JavaScript `Math.round`: round half toward positive infinity. -/
def jsRound (q : ℚ) : ℤ := Rat.floor (q + 1/2)

/-- Model of JavaScript `String.prototype.toUpperCase` (character-wise
uppercasing), defined on the character list so that it evaluates. -/
def jsToUpper (s : String) : String := String.mk (s.data.map Char.toUpper)

/-- Model of JavaScript `String.prototype.trim`: drop whitespace from both
ends, defined on the character list so that it evaluates. -/
def jsTrim (s : String) : String :=
  String.mk (((s.data.dropWhile Char.isWhitespace).reverse.dropWhile Char.isWhitespace).reverse)

/-- The `StateIntake` record of the map page. -/
structure StateIntake where
  code : String
  name : String
  currentVolume : ℚ
  targetVolume : ℚ
  salesNext30Days : ℚ
  status : StateStatus
  fulfilled : ℚ
  pending : ℚ
deriving DecidableEq, Repr

/-- The `IntakeOrder` record created by `createOrder`.  Its numeric fields
are JavaScript numbers, kept as rationals here; integrality of the stored
values is a property to be proved, not baked into the type. -/
structure IntakeOrder where
  id : String
  stateCode : String
  volume : ℚ
  salesForecast : ℚ
  days : ℚ
  createdAt : String
deriving DecidableEq, Repr

/-- The `orderForm` ref: the user's raw inputs to the creation form. -/
structure OrderForm where
  stateCode : String
  volume : JSNum
  salesForecast : JSNum
  days : JSNum
deriving DecidableEq, Repr

/-- The reactive state of the map page touched by `createOrder`:
the order list, the region list, the modal-open flag and the form. -/
structure PageState where
  orders : List IntakeOrder
  states : List StateIntake
  createOrderOpen : Bool
  orderForm : OrderForm
deriving DecidableEq, Repr

/-- Model of `resetOrderForm`: the form's initial values. -/
def defaultOrderForm : OrderForm :=
  { stateCode := "", volume := JSNum.num 1, salesForecast := JSNum.num 5, days := JSNum.num 30 }

/-- Replace the element at index `i` by `f` applied to it (model of the
in-place mutation `mockStates.value[idx]` after `findIndex`). -/
def updateAt : List α → Nat → (α → α) → List α
  | [], _, _ => []
  | a :: l, 0, f => f a :: l
  | a :: l, n+1, f => a :: updateAt l n f

/-- The in-place region mutation performed by `createOrder` on the matched
state: `currentVolume += round(volume)`, `pending += round(volume)`,
`salesNext30Days += round(salesForecast)` only when `days === 30`, then
`status = currentVolume >= targetVolume ? 'active' : 'low'`. -/
def applyOrderToState (v f d : ℚ) (st : StateIntake) : StateIntake :=
  let cv := st.currentVolume + (jsRound v : ℚ)
  { st with
      currentVolume := cv
      pending := st.pending + (jsRound v : ℚ)
      salesNext30Days :=
        if d = 30 then st.salesNext30Days + (jsRound f : ℚ) else st.salesNext30Days
      status := if st.targetVolume ≤ cv then StateStatus.active else StateStatus.low }

/-- Model of the map page's `createOrder`.  The impure ingredients (the
random order id, the current timestamp) are passed in as `oid`, `ts`. -/
def createOrder (oid ts : String) (s : PageState) : PageState :=
  let code := jsToUpper (jsTrim s.orderForm.stateCode)
  match s.orderForm.volume, s.orderForm.salesForecast, s.orderForm.days with
  | JSNum.num v, JSNum.num f, JSNum.num d =>
    if code = "" ∨ v ≤ 0 ∨ f < 0 ∨ d ≤ 0 then s
    else
      { orders :=
          { id := oid, stateCode := code, volume := (jsRound v : ℚ)
            salesForecast := (jsRound f : ℚ), days := (jsRound d : ℚ)
            createdAt := ts } :: s.orders
        states :=
          match s.states.findIdx? (fun st => st.code == code) with
          | some i => updateAt s.states i (applyOrderToState v f d)
          | none => s.states
        createOrderOpen := false
        orderForm := defaultOrderForm }
  | _, _, _ => s

/-- The combined validation of `createOrder`: true exactly when none of the
three early-return guards fires. -/
def orderAccepted (form : OrderForm) : Bool :=
  !(jsToUpper (jsTrim form.stateCode) == "")
    && form.volume.finitePosB
    && form.salesForecast.finiteNonnegB
    && form.days.finitePosB

/-- The `mockStates` seed data of the map page. -/
def mockStates : List StateIntake :=
  [ { code := "CA", name := "California", currentVolume := 45, targetVolume := 50, salesNext30Days := 5, status := StateStatus.active, fulfilled := 40, pending := 5 }
  , { code := "TX", name := "Texas", currentVolume := 38, targetVolume := 40, salesNext30Days := 4, status := StateStatus.active, fulfilled := 35, pending := 3 }
  , { code := "FL", name := "Florida", currentVolume := 22, targetVolume := 30, salesNext30Days := 3, status := StateStatus.low, fulfilled := 20, pending := 2 }
  , { code := "NY", name := "New York", currentVolume := 35, targetVolume := 40, salesNext30Days := 5, status := StateStatus.active, fulfilled := 32, pending := 3 }
  , { code := "PA", name := "Pennsylvania", currentVolume := 18, targetVolume := 25, salesNext30Days := 2, status := StateStatus.low, fulfilled := 16, pending := 2 }
  , { code := "IL", name := "Illinois", currentVolume := 28, targetVolume := 30, salesNext30Days := 3, status := StateStatus.active, fulfilled := 25, pending := 3 }
  , { code := "OH", name := "Ohio", currentVolume := 15, targetVolume := 20, salesNext30Days := 2, status := StateStatus.low, fulfilled := 13, pending := 2 }
  , { code := "GA", name := "Georgia", currentVolume := 20, targetVolume := 25, salesNext30Days := 3, status := StateStatus.low, fulfilled := 18, pending := 2 }
  , { code := "NC", name := "North Carolina", currentVolume := 12, targetVolume := 15, salesNext30Days := 1, status := StateStatus.low, fulfilled := 11, pending := 1 }
  , { code := "MI", name := "Michigan", currentVolume := 8, targetVolume := 15, salesNext30Days := 1, status := StateStatus.low, fulfilled := 7, pending := 1 }
  , { code := "WA", name := "Washington", currentVolume := 25, targetVolume := 30, salesNext30Days := 4, status := StateStatus.active, fulfilled := 22, pending := 3 }
  , { code := "AZ", name := "Arizona", currentVolume := 16, targetVolume := 20, salesNext30Days := 2, status := StateStatus.low, fulfilled := 14, pending := 2 }
  , { code := "MA", name := "Massachusetts", currentVolume := 19, targetVolume := 25, salesNext30Days := 3, status := StateStatus.low, fulfilled := 17, pending := 2 }
  , { code := "TN", name := "Tennessee", currentVolume := 10, targetVolume := 15, salesNext30Days := 1, status := StateStatus.low, fulfilled := 9, pending := 1 }
  , { code := "CO", name := "Colorado", currentVolume := 14, targetVolume := 20, salesNext30Days := 2, status := StateStatus.low, fulfilled := 12, pending := 2 }
  , { code := "OR", name := "Oregon", currentVolume := 11, targetVolume := 15, salesNext30Days := 1, status := StateStatus.low, fulfilled := 10, pending := 1 }
  , { code := "NV", name := "Nevada", currentVolume := 9, targetVolume := 12, salesNext30Days := 1, status := StateStatus.low, fulfilled := 8, pending := 1 }
  , { code := "VA", name := "Virginia", currentVolume := 13, targetVolume := 18, salesNext30Days := 2, status := StateStatus.low, fulfilled := 11, pending := 2 }
  , { code := "MN", name := "Minnesota", currentVolume := 7, targetVolume := 12, salesNext30Days := 1, status := StateStatus.low, fulfilled := 6, pending := 1 }
  , { code := "WI", name := "Wisconsin", currentVolume := 6, targetVolume := 10, salesNext30Days := 1, status := StateStatus.low, fulfilled := 5, pending := 1 } ]

theorem updateAt_getElem? (l : List α) (i : Nat) (f : α → α) :
    (updateAt l i f)[i]? = (l[i]?).map f := by
  induction l generalizing i with
  | nil => simp [updateAt]
  | cons a l ih =>
    cases i with
    | zero => simp [updateAt]
    | succ n => simpa [updateAt] using ih n

/-- C1: creating an order with volume 5, a 30-day window and sales forecast 2
against the matching region with currentVolume 45, targetVolume 50, pending 5
and 30-day forecast 5 leaves that region with currentVolume 50, pending 10,
30-day forecast 7 and status active. -/
theorem createOrder_c1_example_region (oid ts : String) (s : PageState) (st : StateIntake) (i : Nat)
    (hv : s.orderForm.volume = JSNum.num 5)
    (hf : s.orderForm.salesForecast = JSNum.num 2)
    (hd : s.orderForm.days = JSNum.num 30)
    (hcode : jsToUpper (jsTrim s.orderForm.stateCode) = st.code)
    (hne : st.code ≠ "")
    (hidx : s.states.findIdx? (fun x => x.code == st.code) = some i)
    (hget : s.states[i]? = some st)
    (hcv : st.currentVolume = 45) (htv : st.targetVolume = 50)
    (hpend : st.pending = 5) (hsales : st.salesNext30Days = 5) :
    ∃ st', (createOrder oid ts s).states[i]? = some st' ∧
      st'.currentVolume = 50 ∧ st'.pending = 10 ∧
      st'.salesNext30Days = 7 ∧ st'.status = StateStatus.active := by
  refine ⟨applyOrderToState 5 2 30 st, ?_, ?_, ?_, ?_, ?_⟩
  · simp only [createOrder, hv, hf, hd, hcode]
    rw [if_neg (by simp [hne])]
    simp only [hidx, updateAt_getElem?, hget, Option.map]
  · have h5 : jsRound (5:ℚ) = 5 := by decide
    simp [applyOrderToState, h5, hcv]
    norm_num
  · have h5 : jsRound (5:ℚ) = 5 := by decide
    simp [applyOrderToState, h5, hpend]
    norm_num
  · have h2 : jsRound (2:ℚ) = 2 := by decide
    simp [applyOrderToState, h2, hsales]
    norm_num
  · have h5 : jsRound (5:ℚ) = 5 := by decide
    simp [applyOrderToState, h5, hcv, htv]
    norm_num

/-- Witness for C1 at the seed data: the California row of `mockStates` has
exactly the quoted volumes, and an order for CA with volume 5, window 30 and
forecast 2 moves it to 50 / pending 10 / forecast 7 / active. -/
theorem createOrder_c1_example_region_witness :
    ∃ st', (createOrder "O-1" "2024-01-01" (PageState.mk [] mockStates true
        (OrderForm.mk "ca" (JSNum.num 5) (JSNum.num 2) (JSNum.num 30)))).states[0]? = some st' ∧
      st'.currentVolume = 50 ∧ st'.pending = 10 ∧
      st'.salesNext30Days = 7 ∧ st'.status = StateStatus.active :=
  createOrder_c1_example_region "O-1" "2024-01-01" _
    (StateIntake.mk "CA" "California" 45 50 5 StateStatus.active 40 5) 0
    (by decide) (by decide) (by decide) (by decide) (by decide) (by decide)
    (by decide) (by decide) (by decide) (by decide) (by decide)

/-- C2: when the trimmed region code is empty, or the volume is non-finite or
nonpositive, or the forecast is non-finite or negative, or the window is
non-finite or nonpositive, `createOrder` leaves the whole page state unchanged:
no order, no region mutation, the form still open with the same inputs. -/
theorem createOrder_c2_invalid_noop (oid ts : String) (s : PageState)
    (h : jsTrim s.orderForm.stateCode = ""
      ∨ s.orderForm.volume.finitePosB = false
      ∨ s.orderForm.salesForecast.finiteNonnegB = false
      ∨ s.orderForm.days.finitePosB = false) :
    createOrder oid ts s = s := by
  cases hv : s.orderForm.volume with
  | num v =>
    cases hf : s.orderForm.salesForecast with
    | num f =>
      cases hd : s.orderForm.days with
      | num d =>
        simp only [createOrder, hv, hf, hd]
        rw [if_pos]
        rcases h with h | h | h | h
        · left
          rw [h]
          decide
        · right; left
          rw [hv] at h
          simpa [JSNum.finitePosB, not_lt] using h
        · right; right; left
          rw [hf] at h
          simpa [JSNum.finiteNonnegB, not_le] using h
        · right; right; right
          rw [hd] at h
          simpa [JSNum.finitePosB, not_lt] using h
      | nan => simp [createOrder, hv, hf, hd]
      | posInf => simp [createOrder, hv, hf, hd]
      | negInf => simp [createOrder, hv, hf, hd]
    | nan => simp [createOrder, hv, hf]
    | posInf => simp [createOrder, hv, hf]
    | negInf => simp [createOrder, hv, hf]
  | nan => simp [createOrder, hv]
  | posInf => simp [createOrder, hv]
  | negInf => simp [createOrder, hv]

/-- Witness for C2: an all-whitespace region code makes `createOrder` the
identity on a concrete page state. -/
theorem createOrder_c2_invalid_noop_witness :
    createOrder "O-2" "2024-01-02" (PageState.mk [] mockStates true
        (OrderForm.mk "   " (JSNum.num 5) (JSNum.num 2) (JSNum.num 30)))
      = PageState.mk [] mockStates true
        (OrderForm.mk "   " (JSNum.num 5) (JSNum.num 2) (JSNum.num 30)) :=
  createOrder_c2_invalid_noop "O-2" "2024-01-02" _ (Or.inl (by decide))

/-- Values of the `orderDaysOptions` select of the creation form. -/
def orderDaysOptions : List ℚ := [7, 14, 30, 60]

theorem orderAccepted_iff (form : OrderForm) :
    orderAccepted form = true ↔
      jsToUpper (jsTrim form.stateCode) ≠ "" ∧
      ∃ v f d : ℚ, form.volume = JSNum.num v ∧ form.salesForecast = JSNum.num f ∧
        form.days = JSNum.num d ∧ 0 < v ∧ 0 ≤ f ∧ 0 < d := by
  cases hv : form.volume with
  | num v =>
    cases hf : form.salesForecast with
    | num f =>
      cases hd : form.days with
      | num d =>
        simp [orderAccepted, hv, hf, hd, JSNum.finitePosB, JSNum.finiteNonnegB, and_assoc]
      | nan => simp [orderAccepted, hd, JSNum.finitePosB]
      | posInf => simp [orderAccepted, hd, JSNum.finitePosB]
      | negInf => simp [orderAccepted, hd, JSNum.finitePosB]
    | nan => simp [orderAccepted, hf, JSNum.finiteNonnegB]
    | posInf => simp [orderAccepted, hf, JSNum.finiteNonnegB]
    | negInf => simp [orderAccepted, hf, JSNum.finiteNonnegB]
  | nan => simp [orderAccepted, hv, JSNum.finitePosB]
  | posInf => simp [orderAccepted, hv, JSNum.finitePosB]
  | negInf => simp [orderAccepted, hv, JSNum.finitePosB]

/-- C3 counterexample: the inputs volume 3/10, forecast 2, window 5 days pass
`createOrder` validation, yet the created order has volume 0 (not a positive
integer) and a window outside the enumerated day options. -/
theorem createOrder_c3_counterexample :
    orderAccepted (OrderForm.mk "CA" (JSNum.num (3/10)) (JSNum.num 2) (JSNum.num 5)) = true ∧
    (createOrder "O-3" "2024-01-03" (PageState.mk [] mockStates true
        (OrderForm.mk "CA" (JSNum.num (3/10)) (JSNum.num 2) (JSNum.num 5)))).orders.head?
      = some (IntakeOrder.mk "O-3" "CA" 0 2 5 "2024-01-03") ∧
    ¬(0 < (IntakeOrder.mk "O-3" "CA" 0 2 5 "2024-01-03").volume) ∧
    (IntakeOrder.mk "O-3" "CA" 0 2 5 "2024-01-03").days ∉ orderDaysOptions := by
  refine ⟨by decide, by decide, by decide, by decide⟩

/-- C3 amended: every accepted input yields an order whose volume, sales
forecast and window are non-negative integers (rounding can produce a zero
volume from a fractional input, and the window is only validated positive,
not against the enumerated day options). -/
theorem createOrder_c3_amended (oid ts : String) (s : PageState)
    (hacc : orderAccepted s.orderForm = true) :
    ∃ ord, (createOrder oid ts s).orders = ord :: s.orders ∧
      (∃ a : ℤ, ord.volume = (a : ℚ) ∧ 0 ≤ a) ∧
      (∃ b : ℤ, ord.salesForecast = (b : ℚ) ∧ 0 ≤ b) ∧
      (∃ c : ℤ, ord.days = (c : ℚ) ∧ 0 ≤ c) := by
  obtain ⟨hne, v, f, d, hv, hf, hd, hvpos, hfnn, hdpos⟩ := (orderAccepted_iff _).1 hacc
  refine ⟨IntakeOrder.mk oid (jsToUpper (jsTrim s.orderForm.stateCode))
      (jsRound v : ℚ) (jsRound f : ℚ) (jsRound d : ℚ) ts,
    ?_, ⟨jsRound v, rfl, ?_⟩, ⟨jsRound f, rfl, ?_⟩, ⟨jsRound d, rfl, ?_⟩⟩
  · simp only [createOrder, hv, hf, hd]
    rw [if_neg (by push_neg; exact ⟨hne, by linarith, by linarith, by linarith⟩)]
  · exact Rat.le_floor.2 (by push_cast; linarith)
  · exact Rat.le_floor.2 (by push_cast; linarith)
  · exact Rat.le_floor.2 (by push_cast; linarith)

/-- Witness for the amended C3 at the concrete counterexample input. -/
theorem createOrder_c3_amended_witness :
    ∃ ord, (createOrder "O-3" "2024-01-03" (PageState.mk [] mockStates true
        (OrderForm.mk "CA" (JSNum.num (3/10)) (JSNum.num 2) (JSNum.num 5)))).orders
        = ord :: (PageState.mk [] mockStates true
        (OrderForm.mk "CA" (JSNum.num (3/10)) (JSNum.num 2) (JSNum.num 5))).orders ∧
      (∃ a : ℤ, ord.volume = (a : ℚ) ∧ 0 ≤ a) ∧
      (∃ b : ℤ, ord.salesForecast = (b : ℚ) ∧ 0 ≤ b) ∧
      (∃ c : ℤ, ord.days = (c : ℚ) ∧ 0 ≤ c) :=
  createOrder_c3_amended "O-3" "2024-01-03" _ (by decide)

/-- C4: whenever a successful `createOrder` call mutates a region, the mutated
region's status is active exactly when its (new) current volume meets its
target and low otherwise; the inactive status is never produced. -/
theorem createOrder_c4_status_recomputed (oid ts : String) (s : PageState) (i : Nat)
    (hacc : orderAccepted s.orderForm = true)
    (hidx : s.states.findIdx? (fun st => st.code == jsToUpper (jsTrim s.orderForm.stateCode))
      = some i) :
    ∀ st', (createOrder oid ts s).states[i]? = some st' →
      (st'.status = if st'.targetVolume ≤ st'.currentVolume
        then StateStatus.active else StateStatus.low) ∧
      st'.status ≠ StateStatus.inactive := by
  obtain ⟨hne, v, f, d, hv, hf, hd, hvpos, hfnn, hdpos⟩ := (orderAccepted_iff _).1 hacc
  intro st' hst'
  simp only [createOrder, hv, hf, hd] at hst'
  rw [if_neg (by push_neg; exact ⟨hne, by linarith, by linarith, by linarith⟩)] at hst'
  simp only [hidx, updateAt_getElem?] at hst'
  cases hget : s.states[i]? with
  | none => rw [hget] at hst'; simp at hst'
  | some st =>
    rw [hget] at hst'
    simp only [Option.map, Option.some.injEq] at hst'
    subst hst'
    constructor
    · rfl
    · simp only [applyOrderToState]
      split <;> simp

/-- Witness for C4: the CA region after the concrete order of the C1 witness
has status recomputed to active and in particular not inactive. -/
theorem createOrder_c4_status_recomputed_witness :
    (createOrder "O-4" "2024-01-04" (PageState.mk [] mockStates true
        (OrderForm.mk "CA" (JSNum.num 5) (JSNum.num 2) (JSNum.num 30)))).states[0]?
      = some (StateIntake.mk "CA" "California" 50 50 7 StateStatus.active 40 10) ∧
    ((StateIntake.mk "CA" "California" 50 50 7 StateStatus.active 40 10).status
      = if (StateIntake.mk "CA" "California" 50 50 7 StateStatus.active 40 10).targetVolume
          ≤ (StateIntake.mk "CA" "California" 50 50 7 StateStatus.active 40 10).currentVolume
        then StateStatus.active else StateStatus.low) ∧
    (StateIntake.mk "CA" "California" 50 50 7 StateStatus.active 40 10).status
      ≠ StateStatus.inactive :=
  ⟨by decide,
    createOrder_c4_status_recomputed "O-4" "2024-01-04"
      (PageState.mk [] mockStates true
        (OrderForm.mk "CA" (JSNum.num 5) (JSNum.num 2) (JSNum.num 30))) 0 (by decide) (by decide)
      (StateIntake.mk "CA" "California" 50 50 7 StateStatus.active 40 10) (by decide)⟩

/-- The `selectedStatus` filter of the map page: `'all' | StateStatus`. -/
inductive MapFilter where
  | all
  | status (st : StateStatus)
deriving DecidableEq, Repr

/-- The `filteredStates` computed: all states, or those whose status equals
the selected filter. -/
def filteredStates (states : List StateIntake) : MapFilter → List StateIntake
  | MapFilter.all => states
  | MapFilter.status x => states.filter (fun s => s.status == x)

/-- The `stateByCode` computed: a map built by successive `Map.set` calls, so
a later state with the same code overwrites an earlier one. -/
def stateByCode (states : List StateIntake) (code : String) : Option StateIntake :=
  states.foldl (fun acc s => if s.code == code then some s else acc) none

/-- The fixed per-status fill colors of `getStatusColor`. -/
def getStatusColor : StateStatus → String
  | StateStatus.active => "#22c55e"
  | StateStatus.low => "#eab308"
  | StateStatus.inactive => "#ef4444"

/-- The per-shape visibility computed inside the coloring and labeling
passes: true when the filter is `all`, otherwise when some state of the
filtered list carries the shape's code (`visibleSet.has(code)`). -/
def mapVisible (states : List StateIntake) (filter : MapFilter) (code : String) : Bool :=
  match filter with
  | MapFilter.all => true
  | MapFilter.status _ => (filteredStates states filter).any (fun s => s.code == code)

/-- The inline style pushed onto one region-bearing path by `applyMapColors`. -/
structure PathStyle where
  fill : String
  stroke : String
  strokeWidth : ℚ
  cursor : String
  opacity : ℚ
deriving DecidableEq, Repr

/-- The body of the `applyMapColors` loop for one path carrying `code`. -/
def applyMapColorsPath (states : List StateIntake) (filter : MapFilter) (code : String) :
    PathStyle :=
  let state := stateByCode states code
  let isVisible := mapVisible states filter code
  { fill :=
      match state with
      | some st => if isVisible then getStatusColor st.status else "#e5e7eb"
      | none => "#e5e7eb"
    stroke := "#0b0b0b"
    strokeWidth := 4/5
    cursor := match state with | some _ => "pointer" | none => "default"
    opacity := if isVisible then 1 else 3/20 }

/-- Visibility in the words of the specification: the filter is `all`, or the
shape's code maps to a known region whose status equals the filter. -/
def specVisibleB (states : List StateIntake) (filter : MapFilter) (code : String) : Bool :=
  filter == MapFilter.all ||
    (match stateByCode states code with
     | some st => filter == MapFilter.status st.status
     | none => false)

theorem stateByCode_eq_find? (states : List StateIntake) (code : String) :
    stateByCode states code = states.reverse.find? (fun s => s.code == code) := by
  have aux : ∀ (l : List StateIntake) (acc : Option StateIntake),
      l.foldl (fun a s => if s.code == code then some s else a) acc
        = (l.reverse.find? (fun s => s.code == code)).or acc := by
    intro l
    induction l with
    | nil => intro acc; simp
    | cons x t ih =>
      intro acc
      simp only [List.foldl_cons, ih, List.reverse_cons, List.find?_append]
      cases h : t.reverse.find? (fun s => s.code == code) with
      | some s => simp [Option.or]
      | none =>
        simp only [Option.or]
        cases hx : x.code == code <;> simp [List.find?, hx, Option.or]
  unfold stateByCode
  have h := aux states none
  rw [Option.or_none] at h
  exact h

theorem stateByCode_some_mem {states : List StateIntake} {code : String} {st : StateIntake}
    (h : stateByCode states code = some st) : st ∈ states ∧ st.code = code := by
  rw [stateByCode_eq_find?] at h
  refine ⟨List.mem_reverse.1 (List.mem_of_find?_eq_some h), ?_⟩
  simpa using List.find?_some h

theorem stateByCode_none_notmem {states : List StateIntake} {code : String}
    (h : stateByCode states code = none) : ∀ s ∈ states, s.code ≠ code := by
  rw [stateByCode_eq_find?, List.find?_eq_none] at h
  intro s hs
  simpa using h s (List.mem_reverse.2 hs)

theorem stateByCode_some_of_mem {states : List StateIntake} {code : String} {s : StateIntake}
    (hs : s ∈ states) (hc : s.code = code) : ∃ st, stateByCode states code = some st := by
  rw [stateByCode_eq_find?]
  cases h : states.reverse.find? (fun x => x.code == code) with
  | some st => exact ⟨st, rfl⟩
  | none =>
    rw [List.find?_eq_none] at h
    exact absurd (by simpa using hc) (h s (List.mem_reverse.2 hs))

/-- Under distinct region codes, the code's visibility set test agrees with
the specification's phrasing via the looked-up region's status. -/
theorem mapVisible_eq_specVisibleB (states : List StateIntake) (filter : MapFilter)
    (code : String) (hnodup : (states.map (fun s => s.code)).Nodup) :
    mapVisible states filter code = specVisibleB states filter code := by
  cases filter with
  | all => simp [mapVisible, specVisibleB]
  | status x =>
    simp only [mapVisible, specVisibleB, filteredStates]
    cases hsb : stateByCode states code with
    | none =>
      have hnm := stateByCode_none_notmem hsb
      have hany : (states.filter (fun s => s.status == x)).any (fun s => s.code == code)
          = false := by
        rw [← Bool.not_eq_true, List.any_eq_true]
        rintro ⟨s, hs, hcode⟩
        exact hnm s (List.mem_filter.1 hs).1 (by simpa using hcode)
      simp [hany]
    | some st =>
      obtain ⟨hmem, hcode⟩ := stateByCode_some_mem hsb
      by_cases hstat : st.status = x
      · have hany : (states.filter (fun s => s.status == x)).any (fun s => s.code == code)
            = true := by
          rw [List.any_eq_true]
          exact ⟨st, List.mem_filter.2 ⟨hmem, by simp [hstat]⟩, by simp [hcode]⟩
        simp [hany, hstat]
      · have hany : (states.filter (fun s => s.status == x)).any (fun s => s.code == code)
            = false := by
          rw [← Bool.not_eq_true, List.any_eq_true]
          rintro ⟨s, hs, hc⟩
          obtain ⟨hsmem, hsstat⟩ := List.mem_filter.1 hs
          have hse : s = st := List.inj_on_of_nodup_map hnodup hsmem hmem
            (by rw [hcode]; simpa using hc)
          subst hse
          exact hstat (by simpa using hsstat)
        simp [hany, Ne.symm hstat]

/-- C5: for every filter and every region-bearing shape, the fill is the fixed
per-status color exactly when the code maps to a known region that is visible
under the filter, and the neutral gray otherwise; the opacity is 1 when the
shape is visible and strictly between 0 and 1 when it is not. -/
theorem applyMapColors_c5_fill_opacity (states : List StateIntake) (filter : MapFilter)
    (code : String) (hnodup : (states.map (fun s => s.code)).Nodup) :
    (specVisibleB states filter code = true →
      (applyMapColorsPath states filter code).opacity = 1) ∧
    (specVisibleB states filter code = false →
      0 < (applyMapColorsPath states filter code).opacity ∧
      (applyMapColorsPath states filter code).opacity < 1) ∧
    (∀ st, stateByCode states code = some st → specVisibleB states filter code = true →
      (applyMapColorsPath states filter code).fill = getStatusColor st.status) ∧
    ((stateByCode states code = none ∨ specVisibleB states filter code = false) →
      (applyMapColorsPath states filter code).fill = "#e5e7eb") := by
  have hvis := mapVisible_eq_specVisibleB states filter code hnodup
  refine ⟨?_, ?_, ?_, ?_⟩
  · intro h
    simp [applyMapColorsPath, hvis, h]
  · intro h
    have hop : (applyMapColorsPath states filter code).opacity = 3/20 := by
      simp [applyMapColorsPath, hvis, h]
    rw [hop]
    norm_num
  · intro st hst h
    simp [applyMapColorsPath, hvis, h, hst]
  · rintro (h | h)
    · simp [applyMapColorsPath, h]
    · simp only [applyMapColorsPath, hvis, h, Bool.false_eq_true, if_false]
      cases stateByCode states code <;> rfl

/-- Witness for C5: in the seed data under the `low` filter, the (active) CA
shape is known but not visible, so it is painted gray at dimmed opacity
3/20, which lies strictly between 0 and 1. -/
theorem applyMapColors_c5_fill_opacity_witness :
    0 < (applyMapColorsPath mockStates (MapFilter.status StateStatus.low) "CA").opacity ∧
    (applyMapColorsPath mockStates (MapFilter.status StateStatus.low) "CA").opacity < 1 ∧
    (applyMapColorsPath mockStates (MapFilter.status StateStatus.low) "CA").fill = "#e5e7eb" :=
  have h := applyMapColors_c5_fill_opacity mockStates (MapFilter.status StateStatus.low) "CA"
    (by decide)
  ⟨(h.2.1 (by decide)).1, (h.2.1 (by decide)).2, h.2.2.2 (Or.inr (by decide))⟩

/-- A geometric bounding box as returned by `getBBox`. -/
structure BBox where
  x : ℚ
  y : ℚ
  w : ℚ
  h : ℚ
deriving DecidableEq, Repr

/-- A region-bearing path of the injected document: the resolved code
attribute (`data-id`, falling back to `id`; `none` when both are missing)
and the bounding box (`none` when `getBBox` throws). -/
structure Shape where
  code : Option String
  bbox : Option BBox
deriving DecidableEq, Repr

/-- One text label of the label group: its content, center position and
computed font size. -/
structure SvgLabel where
  text : String
  x : ℚ
  y : ℚ
  fontSize : ℚ
deriving DecidableEq, Repr

/-- The injected SVG document as the labeling pass sees it: its
region-bearing paths and the current label group. -/
structure SvgDoc where
  shapes : List Shape
  labels : List SvgLabel
deriving DecidableEq, Repr

/-- One iteration of the `applyStateLabels` loop: resolve the code attribute
(returning early on a falsy code), attempt `getBBox` (returning early when it
throws), return early when the shape is not visible, otherwise append a
centered label with font size `max(6, min(width, height) / 3)` to the group. -/
def labelStep (states : List StateIntake) (filter : MapFilter)
    (g : List SvgLabel) (sh : Shape) : List SvgLabel :=
  match sh.code with
  | none => g
  | some code =>
    if code = "" then g
    else
      match sh.bbox with
      | none => g
      | some b =>
        if mapVisible states filter code then
          g ++ [SvgLabel.mk code (b.x + b.w/2) (b.y + b.h/2) (max 6 (min b.w b.h / 3))]
        else g

/-- Model of `applyStateLabels`: remove the previous label group and build a
fresh one from the document's shapes. -/
def applyStateLabels (states : List StateIntake) (filter : MapFilter)
    (doc : SvgDoc) : SvgDoc :=
  { doc with labels := doc.shapes.foldl (labelStep states filter) [] }

/-- The per-shape label characterization used to state C6: a label exists for
a shape exactly when it has a non-empty resolved code, a computable bounding
box, and is visible under the filter. -/
def shapeLabel (states : List StateIntake) (filter : MapFilter) (sh : Shape) :
    Option SvgLabel :=
  match sh.code, sh.bbox with
  | some code, some b =>
    if code ≠ "" ∧ mapVisible states filter code = true then
      some (SvgLabel.mk code (b.x + b.w/2) (b.y + b.h/2) (max 6 (min b.w b.h / 3)))
    else none
  | _, _ => none

theorem labelStep_eq (states : List StateIntake) (filter : MapFilter)
    (g : List SvgLabel) (sh : Shape) :
    labelStep states filter g sh = g ++ (shapeLabel states filter sh).toList := by
  cases hc : sh.code with
  | none => simp [labelStep, shapeLabel, hc]
  | some code =>
    cases hb : sh.bbox with
    | none => simp [labelStep, shapeLabel, hc, hb]
    | some b =>
      by_cases hce : code = ""
      · simp [labelStep, shapeLabel, hc, hb, hce]
      · cases hv : mapVisible states filter code with
        | true => simp [labelStep, shapeLabel, hc, hb, hce, hv]
        | false => simp [labelStep, shapeLabel, hc, hb, hce, hv]

theorem foldl_labelStep_eq (states : List StateIntake) (filter : MapFilter)
    (shapes : List Shape) (g : List SvgLabel) :
    shapes.foldl (labelStep states filter) g
      = g ++ shapes.filterMap (shapeLabel states filter) := by
  induction shapes generalizing g with
  | nil => simp
  | cons sh rest ih =>
    simp only [List.foldl_cons, ih, labelStep_eq, List.filterMap_cons]
    cases shapeLabel states filter sh <;> simp

/-- C6 counterexample: under the `all` filter, a shape whose code maps to no
known region still gets a label, so labels are not restricted to known region
codes as the claim states. -/
theorem applyStateLabels_c6_counterexample :
    stateByCode mockStates "ZZ" = none ∧
    (applyStateLabels mockStates MapFilter.all
        (SvgDoc.mk [Shape.mk (some "ZZ") (some (BBox.mk 0 0 30 30))] [])).labels
      = [SvgLabel.mk "ZZ" 15 15 10] :=
  ⟨by decide, by decide⟩

/-- C6 amended: every labeling pass replaces the previous label group with
exactly one label per shape that has a non-empty resolved code, a computable
bounding box, and is visible under the filter (knownness of the code is only
implied for non-`all` filters, via the visibility test); each label sits at
the box center, shows the code, and has font size `max(6, min(w, h) / 3)`;
shapes whose box cannot be computed are skipped without aborting the pass. -/
theorem applyStateLabels_c6_amended (states : List StateIntake) (filter : MapFilter)
    (doc : SvgDoc) :
    (applyStateLabels states filter doc).labels
      = doc.shapes.filterMap (shapeLabel states filter) ∧
    (∀ sh, sh.bbox = none → shapeLabel states filter sh = none) := by
  constructor
  · simpa [applyStateLabels] using foldl_labelStep_eq states filter doc.shapes []
  · intro sh hb
    cases hc : sh.code <;> simp [shapeLabel, hc, hb]

/-- Model of the position computation of `handleMouseMove` while the tooltip
is open: the pointer position relative to the container plus a 6px offset,
clamped into `[4, max 0 (container - tooltip - 4)]` on each axis. -/
def handleMouseMove (clientX clientY rectLeft rectTop rectW rectH w h : ℚ) : ℚ × ℚ :=
  let rawX := clientX - rectLeft + 6
  let rawY := clientY - rectTop + 6
  let maxX := max 0 (rectW - w - 4)
  let maxY := max 0 (rectH - h - 4)
  (max 4 (min rawX maxX), max 4 (min rawY maxY))

/-- C7 counterexample: with a 10-wide container and a 20-wide tooltip the
clamped x position is 4, so the tooltip's right edge (24) exceeds the
container width; the claimed bound fails for every pointer position once the
tooltip outgrows the container. -/
theorem handleMouseMove_c7_counterexample :
    ¬((handleMouseMove 0 0 0 0 10 10 20 20).1 + 20 ≤ 10) := by
  decide

/-- C7 amended: both coordinates keep the 4px minimum margin unconditionally;
the tooltip box stays inside the container on the right edge whenever the
container width exceeds the tooltip width by at least 8 (twice the 4px
margin), and likewise on the bottom edge for the heights. -/
theorem handleMouseMove_c7_amended (clientX clientY rectLeft rectTop rectW rectH w h : ℚ) :
    (w + 8 ≤ rectW →
      (handleMouseMove clientX clientY rectLeft rectTop rectW rectH w h).1 + w ≤ rectW) ∧
    (h + 8 ≤ rectH →
      (handleMouseMove clientX clientY rectLeft rectTop rectW rectH w h).2 + h ≤ rectH) ∧
    4 ≤ (handleMouseMove clientX clientY rectLeft rectTop rectW rectH w h).1 ∧
    4 ≤ (handleMouseMove clientX clientY rectLeft rectTop rectW rectH w h).2 := by
  simp only [handleMouseMove]
  refine ⟨?_, ?_, le_max_left _ _, le_max_left _ _⟩
  · intro hw
    have h1 : max (0:ℚ) (rectW - w - 4) = rectW - w - 4 := max_eq_right (by linarith)
    rw [h1]
    have h2 : max (4:ℚ) (min (clientX - rectLeft + 6) (rectW - w - 4)) ≤ rectW - w - 4 :=
      max_le (by linarith) (min_le_right _ _)
    linarith
  · intro hh
    have h1 : max (0:ℚ) (rectH - h - 4) = rectH - h - 4 := max_eq_right (by linarith)
    rw [h1]
    have h2 : max (4:ℚ) (min (clientY - rectTop + 6) (rectH - h - 4)) ≤ rectH - h - 4 :=
      max_le (by linarith) (min_le_right _ _)
    linarith

/-- Witness for the amended C7 at a concrete pointer position and tooltip
size well inside a 300 by 200 container. -/
theorem handleMouseMove_c7_amended_witness :
    (handleMouseMove 100 80 0 0 300 200 50 40).1 + 50 ≤ 300 ∧
    (handleMouseMove 100 80 0 0 300 200 50 40).2 + 40 ≤ 200 ∧
    4 ≤ (handleMouseMove 100 80 0 0 300 200 50 40).1 ∧
    4 ≤ (handleMouseMove 100 80 0 0 300 200 50 40).2 :=
  have h := handleMouseMove_c7_amended 100 80 0 0 300 200 50 40
  ⟨h.1 (by decide), h.2.1 (by decide), h.2.2.1, h.2.2.2⟩

/-- Outcome of the `localStorage.getItem` read inside the fetch-failure
branch: a successful read (possibly of no stored entry) or a thrown error. -/
inductive CacheRead where
  | ok (v : Option String)
  | err
deriving DecidableEq, Repr

/-- Model of the mount-time load protocol's choice of injected document:
`fetched = some text` is a successful remote fetch (a non-ok status throws),
`none` a failed one; `write` is the outcome of the best-effort cache write on
the success path (its catch block is empty); on failure the cache read and
the bundled fallback decide the document, with a falsy (empty) cached string
falling through to the fallback as in `cached || usSvgFallbackRaw`. -/
def loadMapDocument (fetched : Option String) (_write : Bool) (read : CacheRead)
    (fallback : String) : String :=
  match fetched with
  | some text => text
  | none =>
    match read with
    | CacheRead.ok (some cached) => if cached = "" then fallback else cached
    | CacheRead.ok none => fallback
    | CacheRead.err => fallback

/-- C8: when the remote fetch fails, a non-empty cached document is injected
as-is (never the bundled fallback); an empty or unreadable cache falls back
to the bundled document; and the cache-write outcome never changes which
document is injected. -/
theorem loadMapDocument_c8_fallback_chain (fetched : Option String) (write write' : Bool)
    (read : CacheRead) (fallback : String) :
    (∀ c, fetched = none → read = CacheRead.ok (some c) → c ≠ "" →
      loadMapDocument fetched write read fallback = c) ∧
    (fetched = none →
      (read = CacheRead.err ∨ read = CacheRead.ok none ∨ read = CacheRead.ok (some "")) →
      loadMapDocument fetched write read fallback = fallback) ∧
    loadMapDocument fetched write read fallback
      = loadMapDocument fetched write' read fallback := by
  refine ⟨?_, ?_, rfl⟩
  · rintro c rfl rfl hc
    simp [loadMapDocument, hc]
  · rintro rfl (rfl | rfl | rfl) <;> simp [loadMapDocument]

/-- Witness for C8: concrete failed fetches against a populated, an empty and
an unreadable cache. -/
theorem loadMapDocument_c8_fallback_chain_witness :
    loadMapDocument none true (CacheRead.ok (some "cached-doc")) "bundled-doc"
      = "cached-doc" ∧
    loadMapDocument none true (CacheRead.ok none) "bundled-doc" = "bundled-doc" ∧
    loadMapDocument none true CacheRead.err "bundled-doc" = "bundled-doc" :=
  ⟨(loadMapDocument_c8_fallback_chain none true false
      (CacheRead.ok (some "cached-doc")) "bundled-doc").1 "cached-doc" rfl rfl (by decide),
   (loadMapDocument_c8_fallback_chain none true false
      (CacheRead.ok none) "bundled-doc").2.1 rfl (Or.inr (Or.inl rfl)),
   (loadMapDocument_c8_fallback_chain none true false
      CacheRead.err "bundled-doc").2.1 rfl (Or.inl rfl)⟩

/-- Modelled from the spec: the `useAttorneyProfile` composable's
`commitEditing(ownerId, fieldList)` is not under src/ (only its callers are);
per section 4.2 it persists exactly the named subset of fields from the draft
into the remote record, leaving every other backend field untouched.  The
backend record and the draft are maps from field name to an optional stored
value. -/
def commitEditing (backend draft : String → Option String) (fields : List String) :
    String → Option String :=
  fun name => if name ∈ fields then draft name else backend name

/-- The field list the expertise tab passes to `commitEditing`. -/
def expertiseFields : List String :=
  ["licensedStates", "primaryCity", "countiesCovered", "federalCourts",
   "primaryPracticeFocus", "injuryCategories", "exclusionaryCriteria", "minimumCaseValue"]

/-- The field list the capacity tab passes to `commitEditing`. -/
def capacityFields : List String :=
  ["availabilityStatus", "firmSize", "caseManagementSoftware", "insuranceCarriers",
   "litigationStyle", "largestSettlement", "avgTimeToClose"]

/-- C9: committing with a field list persists exactly the listed fields from
the draft; any field outside the list keeps its previously persisted backend
value, even when the shared draft also holds a value for it. -/
theorem commitEditing_c9_scoped_write (backend draft : String → Option String)
    (fields : List String) (name : String) :
    (name ∉ fields → commitEditing backend draft fields name = backend name) ∧
    (name ∈ fields → commitEditing backend draft fields name = draft name) := by
  constructor
  · intro h
    simp [commitEditing, h]
  · intro h
    simp [commitEditing, h]

/-- Witness for C9: committing the expertise tab's field list leaves the
capacity-owned `availabilityStatus` at its persisted backend value even
though the draft carries a different value for it. -/
theorem commitEditing_c9_scoped_write_witness :
    commitEditing (fun _ => some "accepting") (fun _ => some "at_capacity")
      expertiseFields "availabilityStatus" = some "accepting" :=
  (commitEditing_c9_scoped_write (fun _ => some "accepting") (fun _ => some "at_capacity")
    expertiseFields "availabilityStatus").1 (by decide)

/-- Modelled from the spec: the `useAttorneyProfile` draft machine is not
under src/ (only its callers are); per section 4.2, `baseline` is the
last-loaded persisted state, `draft` the working copy, `editing` the
Idle/Editing state, and `isDirty` holds when the draft differs from the
baseline.  Records are association lists of field/value pairs. -/
structure ProfileMachine where
  baseline : List (String × String)
  draft : List (String × String)
  editing : Bool
deriving DecidableEq, Repr

/-- Modelled from the spec: the composable's `isEditing` flag. -/
def isEditing (m : ProfileMachine) : Bool := m.editing

/-- Modelled from the spec: `isDirty` is true iff any field of the draft
differs from the baseline. -/
def isDirty (m : ProfileMachine) : Bool := !(m.draft == m.baseline)

/-- Modelled from the spec: `cancelEditing` returns to Idle and resets the
draft to the last-loaded baseline. -/
def cancelEditing (m : ProfileMachine) : ProfileMachine :=
  { m with editing := false, draft := m.baseline }

/-- The mount-time reconciliation embedded from the settings tabs'
`onMounted` (capacity.vue and the expertise tab): after loading the profile,
`if (isEditing && !isDirty) cancelEditing()`. -/
def mountReconcile (m : ProfileMachine) : ProfileMachine :=
  if isEditing m && !(isDirty m) then cancelEditing m else m

/-- C10: after a settings tab mounts, an Editing-but-clean machine is
cancelled back to a clean Idle (draft equal to baseline, not editing, not
dirty), while an Editing-and-dirty machine is left untouched. -/
theorem mountReconcile_c10_clean_idle (m : ProfileMachine) :
    (isEditing m = true → isDirty m = false →
      mountReconcile m = cancelEditing m ∧
      isEditing (mountReconcile m) = false ∧
      isDirty (mountReconcile m) = false ∧
      (mountReconcile m).draft = (mountReconcile m).baseline) ∧
    (isEditing m = true → isDirty m = true → mountReconcile m = m) := by
  constructor
  · intro he hd
    have hcond : (isEditing m && !(isDirty m)) = true := by rw [he, hd]; rfl
    have hmr : mountReconcile m = cancelEditing m := by simp [mountReconcile, hcond]
    refine ⟨hmr, ?_, ?_, ?_⟩
    · rw [hmr]; rfl
    · rw [hmr]; simp [isDirty, cancelEditing]
    · rw [hmr]; rfl
  · intro he hd
    have hcond : (isEditing m && !(isDirty m)) = false := by rw [he, hd]; rfl
    simp [mountReconcile, hcond]

/-- Witness for C10: a concrete machine left Editing with no divergence is
reconciled to a clean Idle, and a dirty one is left alone. -/
theorem mountReconcile_c10_clean_idle_witness :
    (mountReconcile (ProfileMachine.mk [("primaryCity", "LA")] [("primaryCity", "LA")] true)
      = cancelEditing (ProfileMachine.mk [("primaryCity", "LA")] [("primaryCity", "LA")] true) ∧
     isEditing (mountReconcile
       (ProfileMachine.mk [("primaryCity", "LA")] [("primaryCity", "LA")] true)) = false ∧
     isDirty (mountReconcile
       (ProfileMachine.mk [("primaryCity", "LA")] [("primaryCity", "LA")] true)) = false ∧
     (mountReconcile
       (ProfileMachine.mk [("primaryCity", "LA")] [("primaryCity", "LA")] true)).draft
       = (mountReconcile
       (ProfileMachine.mk [("primaryCity", "LA")] [("primaryCity", "LA")] true)).baseline) ∧
    mountReconcile (ProfileMachine.mk [("primaryCity", "LA")] [("primaryCity", "SF")] true)
      = ProfileMachine.mk [("primaryCity", "LA")] [("primaryCity", "SF")] true :=
  ⟨(mountReconcile_c10_clean_idle
      (ProfileMachine.mk [("primaryCity", "LA")] [("primaryCity", "LA")] true)).1
        (by decide) (by decide),
   (mountReconcile_c10_clean_idle
      (ProfileMachine.mk [("primaryCity", "LA")] [("primaryCity", "SF")] true)).2
        (by decide) (by decide)⟩

end LawyerPortal
